import Mathlib

/-!
Verification of the react-griditty grid-layout component
(`src/useLayoutState.ts`: the `useLayoutState` hook and the `GridLayout`
component in its two variants).

Shallow embedding conventions:
* Pixel quantities (pointer coordinates, container rect geometry, cell
  sizes) are rationals `ℚ`, the exact-arithmetic model of JS numbers.
* Grid quantities (item coordinates and sizes, column counts) are
  integers `ℤ`, as the data model declares them.
* `Math.round` for finite inputs is `jsRound q = ⌊q + 1/2⌋` (half-up).
* The React `useState`/`dispatch` effects are made explicit: every event
  handler is a pure function from its inputs (component props, the
  current snapshot, the gesture state, the container rect, the mouse
  event) to the updated gesture state together with the list of actions
  dispatched to the store during that call.
* The embedding is faithful to JS arithmetic only where no division by
  zero occurs; theorems therefore carry positivity hypotheses on the
  cell geometry wherever the source divides by it.

The repository bundles two `GridLayout` variants:
* the fluid variant (container-relative cell width,
  `getCellWidthFromRect`), embedded in namespace `Griditty.Fluid`;
* the fixed variant (constant `cellWidth`, named helpers `pixelToGridX`
  / `pixelToGridW`), embedded in namespace `Griditty.Fixed`.
-/

namespace Griditty

/-- JS `Math.round` on a finite number: round half toward `+∞`. -/
def jsRound (q : ℚ) : ℤ := Int.floor (q + 1/2)

/-- One panel's committed geometry (`GridItem` from the layout store). -/
structure GridItem where
  id : String
  x : ℤ
  y : ℤ
  w : ℤ
  h : ℤ
deriving DecidableEq

/-- The store snapshot (`LayoutState`): ordered items plus column count. -/
structure LayoutState where
  items : List GridItem
  columns : ℤ
deriving DecidableEq

/-- An action dispatched to the layout store. -/
inductive LayoutAction where
  | move (id : String) (x y : ℤ)
  | resize (id : String) (w h : ℤ)
deriving DecidableEq

/-- The fields of a DOM `MouseEvent` that the handlers read. -/
structure MouseEvent where
  clientX : ℚ
  clientY : ℚ
  button : ℤ
deriving DecidableEq

/-- The fields of the container's `getBoundingClientRect()` that the
handlers read. An unmounted container is modelled as `Option.none` at the
call sites. -/
structure Rect where
  left : ℚ
  top : ℚ
  width : ℚ
deriving DecidableEq

/-- Drag gesture state (`drag` in both `GridLayout` variants): item id,
pointer-down pixel anchor, and the live preview grid position. -/
structure DragState where
  id : String
  startX : ℚ
  startY : ℚ
  gridX : ℤ
  gridY : ℤ
deriving DecidableEq

/-- Resize gesture state (`resize` in both `GridLayout` variants): item
id, pre-gesture size, and pointer-down pixel anchor. -/
structure ResizeState where
  id : String
  startW : ℤ
  startH : ℤ
  startPixelX : ℚ
  startPixelY : ℚ
deriving DecidableEq

/-- `pixelToGridY` (both variants): round, clamp to `≥ 0`. -/
def pixelToGridY (cellHeight : ℚ) (pixelY : ℚ) : ℤ :=
  max 0 (jsRound (pixelY / cellHeight))

/-- `pixelToGridH` (both variants): round, clamp to `≥ 1`. -/
def pixelToGridH (cellHeight : ℚ) (pixelH : ℚ) : ℤ :=
  max 1 (jsRound (pixelH / cellHeight))

/-- `pixelToGridX` (fixed variant, also inlined with the effective cell
width in the fluid variant's `handleMove`): round, clamp to
`[0, columns - 1]`. -/
def pixelToGridX (cellWidth : ℚ) (columns : ℤ) (pixelX : ℚ) : ℤ :=
  max 0 (min (columns - 1) (jsRound (pixelX / cellWidth)))

/-- `pixelToGridW` (fixed variant, also inlined with the effective cell
width in the fluid variant's `handleResize`): round, clamp to `≥ 1`. -/
def pixelToGridW (cellWidth : ℚ) (pixelW : ℚ) : ℤ :=
  max 1 (jsRound (pixelW / cellWidth))

/-- `onPanelMouseDown` (both variants): on a primary-button press with
dragging enabled, start a drag whose preview is the item's committed
position; otherwise leave the gesture state alone. -/
def onPanelMouseDown (draggable : Bool) (e : MouseEvent) (item : GridItem)
    (drag : Option DragState) : Option DragState :=
  if draggable && (e.button == 0) then
    some { id := item.id, startX := e.clientX, startY := e.clientY,
           gridX := item.x, gridY := item.y }
  else drag

/-- `onResizeHandleMouseDown` (both variants): on a primary-button press
with resizing enabled, start a resize capturing the item's size and the
pointer anchor; otherwise leave the gesture state alone. -/
def onResizeHandleMouseDown (resizable : Bool) (e : MouseEvent)
    (item : GridItem) (resize : Option ResizeState) : Option ResizeState :=
  if resizable && (e.button == 0) then
    some { id := item.id, startW := item.w, startH := item.h,
           startPixelX := e.clientX, startPixelY := e.clientY }
  else resize

/-- `handleMoveEnd` (both variants): if a drag is active, dispatch one
`move` action with the preview position and clear the drag state;
otherwise do nothing. -/
def handleMoveEnd (drag : Option DragState) :
    Option DragState × List LayoutAction :=
  match drag with
  | some d => (none, [LayoutAction.move d.id d.gridX d.gridY])
  | none => (none, [])

/-- `handleResizeEnd` (both variants): clear the resize state; no
dispatch. -/
def handleResizeEnd : Option ResizeState × List LayoutAction :=
  (none, [])

namespace Fluid

/-- `getCellWidthFromRect` (fluid variant): effective cell width from the
live container rect, falling back to `cellWidth` when `columns ≤ 0`. -/
def getCellWidthFromRect (columns : ℤ) (cellWidth : ℚ) (rect : Rect) : ℚ :=
  if 0 < columns then rect.width / (columns : ℚ) else cellWidth

/-- `handleMove` (fluid variant): with an active drag and a mounted
container, recompute the preview grid position from the pointer position
and the effective cell width; no dispatch. Otherwise a no-op. -/
def handleMove (columns : ℤ) (cellWidth cellHeight : ℚ)
    (drag : Option DragState) (rect : Option Rect) (e : MouseEvent) :
    Option DragState × List LayoutAction :=
  match drag, rect with
  | some d, some r =>
      let cw := getCellWidthFromRect columns cellWidth r
      let pixelX := e.clientX - r.left
      let pixelY := e.clientY - r.top
      let gridX := pixelToGridX cw columns pixelX
      let gridY := pixelToGridY cellHeight pixelY
      (some { d with gridX := gridX, gridY := gridY }, [])
  | _, _ => (drag, [])

/-- The width dispatched by the fluid `handleResize` for a found item:
floor the pixel width at one cell, convert, clamp to `≥ 1` and to
`columns - item.x`. -/
def resizeW (columns : ℤ) (cw : ℚ) (item : GridItem) (pixelX : ℚ) : ℤ :=
  let baseLeft := (item.x : ℚ) * cw
  let pixelW := max cw (pixelX - baseLeft)
  min (columns - item.x) (max 1 (jsRound (pixelW / cw)))

/-- The height dispatched by `handleResize` (same formula in both
variants): floor the pixel height at one cell, convert, clamp to `≥ 1`. -/
def resizeH (cellHeight : ℚ) (item : GridItem) (pixelY : ℚ) : ℤ :=
  let baseTop := (item.y : ℚ) * cellHeight
  let pixelH := max cellHeight (pixelY - baseTop)
  pixelToGridH cellHeight pixelH

/-- `handleResize` (fluid variant): with an active resize, a mounted
container, and the target item present in the snapshot, dispatch one
`resize` action computed from the snapshot item's geometry and the live
rect; otherwise do nothing. The gesture state is never modified here. -/
def handleResize (columns : ℤ) (cellWidth cellHeight : ℚ)
    (items : List GridItem) (resize : Option ResizeState)
    (rect : Option Rect) (e : MouseEvent) :
    Option ResizeState × List LayoutAction :=
  match resize, rect with
  | some rs, some r =>
      match items.find? (fun i => i.id == rs.id) with
      | none => (resize, [])
      | some item =>
          let cw := getCellWidthFromRect columns cellWidth r
          let pixelX := e.clientX - r.left
          let pixelY := e.clientY - r.top
          (resize, [LayoutAction.resize rs.id
            (resizeW columns cw item pixelX)
            (resizeH cellHeight item pixelY)])
  | _, _ => (resize, [])

/-- Run the fluid `handleMove` over a sequence of pointer-move ticks in
arrival order (each tick carries the container rect measured at that
tick, or `none` when unmounted), accumulating every action dispatched
along the way. -/
def runMoves (columns : ℤ) (cellWidth cellHeight : ℚ) :
    Option DragState → List (Option Rect × MouseEvent) →
    Option DragState × List LayoutAction
  | d, [] => (d, [])
  | d, ev :: evs =>
      let st := handleMove columns cellWidth cellHeight d ev.1 ev.2
      let rest := runMoves columns cellWidth cellHeight st.1 evs
      (rest.1, st.2 ++ rest.2)

/-- A whole drag gesture: pointer-down on `item`, the given move ticks,
then pointer-up. Returns the actions dispatched during the moves paired
with the actions dispatched on pointer-up. -/
def dragGesture (columns : ℤ) (cellWidth cellHeight : ℚ)
    (e0 : MouseEvent) (item : GridItem)
    (evs : List (Option Rect × MouseEvent)) :
    List LayoutAction × List LayoutAction :=
  let d0 := onPanelMouseDown true e0 item none
  let r := runMoves columns cellWidth cellHeight d0 evs
  (r.2, (handleMoveEnd r.1).2)

end Fluid

namespace Fixed

/-- `handleMove` (fixed variant): identical to the fluid one but the cell
width is the constant `cellWidth` prop. -/
def handleMove (columns : ℤ) (cellWidth cellHeight : ℚ)
    (drag : Option DragState) (rect : Option Rect) (e : MouseEvent) :
    Option DragState × List LayoutAction :=
  match drag, rect with
  | some d, some r =>
      let pixelX := e.clientX - r.left
      let pixelY := e.clientY - r.top
      let gridX := pixelToGridX cellWidth columns pixelX
      let gridY := pixelToGridY cellHeight pixelY
      (some { d with gridX := gridX, gridY := gridY }, [])
  | _, _ => (drag, [])

/-- The width dispatched by the fixed `handleResize` for a found item. -/
def resizeW (columns : ℤ) (cellWidth : ℚ) (item : GridItem)
    (pixelX : ℚ) : ℤ :=
  let baseLeft := (item.x : ℚ) * cellWidth
  let pixelW := max cellWidth (pixelX - baseLeft)
  min (columns - item.x) (pixelToGridW cellWidth pixelW)

/-- `handleResize` (fixed variant): as the fluid one, with the constant
`cellWidth`. -/
def handleResize (columns : ℤ) (cellWidth cellHeight : ℚ)
    (items : List GridItem) (resize : Option ResizeState)
    (rect : Option Rect) (e : MouseEvent) :
    Option ResizeState × List LayoutAction :=
  match resize, rect with
  | some rs, some r =>
      match items.find? (fun i => i.id == rs.id) with
      | none => (resize, [])
      | some item =>
          let pixelX := e.clientX - r.left
          let pixelY := e.clientY - r.top
          (resize, [LayoutAction.resize rs.id
            (resizeW columns cellWidth item pixelX)
            (Fluid.resizeH cellHeight item pixelY)])
  | _, _ => (resize, [])

end Fixed

/-- An external store for the `useLayoutState` hook: reference identity
is modelled by `sid`, and `getState` is the snapshot the store would
return during the current synchronization cycle. -/
structure Store where
  sid : ℕ
  getState : LayoutState

/-- The hook's per-component state: the cached snapshot plus the store
identity the current effect/subscription is bound to (`none` before the
first effect runs). -/
structure HookInst where
  state : LayoutState
  dep : Option ℕ

/-- `useLayoutState`'s effect, keyed on `[store]`: when the store
identity differs from the one the effect is bound to, re-read
`getState()` into the cached snapshot and rebind; otherwise the effect
does not re-run. -/
def renderSync (h : HookInst) (s : Store) : HookInst :=
  if h.dep = some s.sid then h
  else { state := s.getState, dep := some s.sid }

/-- The subscription listener of `useLayoutState`: on a store
notification, overwrite the cached snapshot with a fresh `getState()`. -/
def notifySync (h : HookInst) (s : Store) : HookInst :=
  { h with state := s.getState }

/-- A drag preview position that is valid for the given column count:
the x preview lies in `[0, columns - 1]` and the y preview is
non-negative. -/
def DragOk (columns : ℤ) (d : DragState) : Prop :=
  0 ≤ d.gridX ∧ d.gridX ≤ columns - 1 ∧ 0 ≤ d.gridY

lemma jsRound_mono {q q' : ℚ} (h : q ≤ q') : jsRound q ≤ jsRound q' :=
  Int.floor_le_floor (add_le_add_right h _)

lemma pixelToGridX_nonneg (cw : ℚ) (cols : ℤ) (px : ℚ) :
    0 ≤ pixelToGridX cw cols px :=
  le_max_left _ _

lemma pixelToGridX_le (cw : ℚ) (cols : ℤ) (px : ℚ) (h : 1 ≤ cols) :
    pixelToGridX cw cols px ≤ cols - 1 :=
  max_le (by omega) (min_le_left _ _)

lemma pixelToGridY_nonneg (ch py : ℚ) : 0 ≤ pixelToGridY ch py :=
  le_max_left _ _

/-- Pointer-move ticks never dispatch while no drag is active. -/
lemma runMoves_none (columns : ℤ) (cellWidth cellHeight : ℚ) :
    ∀ evs, Fluid.runMoves columns cellWidth cellHeight none evs = (none, [])
  | [] => rfl
  | ev :: evs => by
      cases hr : ev.1 <;>
        simp [Fluid.runMoves, Fluid.handleMove, hr,
          runMoves_none columns cellWidth cellHeight evs]

/-- Invariant of the fluid drag-move loop: an active drag stays active
with the same item id, the loop itself dispatches nothing, and, when the
column count is positive, validity of the preview position is
established by every processed tick and preserved by skipped ones. -/
lemma runMoves_some (columns : ℤ) (cellWidth cellHeight : ℚ) :
    ∀ (evs : List (Option Rect × MouseEvent)) (d : DragState),
      ∃ g : DragState,
        Fluid.runMoves columns cellWidth cellHeight (some d) evs =
          (some g, []) ∧
        g.id = d.id ∧ (1 ≤ columns → DragOk columns d → DragOk columns g)
  | [], d => ⟨d, rfl, rfl, fun _ h => h⟩
  | ev :: evs, d => by
      cases hr : ev.1 with
      | none =>
          obtain ⟨g, hg, hid, hok⟩ :=
            runMoves_some columns cellWidth cellHeight evs d
          exact ⟨g, by simp [Fluid.runMoves, Fluid.handleMove, hr, hg],
            hid, hok⟩
      | some r =>
          obtain ⟨g, hg, hid, hok⟩ :=
            runMoves_some columns cellWidth cellHeight evs
              { d with
                gridX := pixelToGridX
                  (Fluid.getCellWidthFromRect columns cellWidth r) columns
                  (ev.2.clientX - r.left),
                gridY := pixelToGridY cellHeight (ev.2.clientY - r.top) }
          refine ⟨g, by simp [Fluid.runMoves, Fluid.handleMove, hr, hg],
            hid, fun hc _ => hok hc ?_⟩
          exact ⟨pixelToGridX_nonneg _ _ _, pixelToGridX_le _ _ _ hc,
            pixelToGridY_nonneg _ _⟩

/-- C1: for every resize pointer-move tick — for any pointer pixel
position, any `item.x`, and any `columns` — the dispatched resize
action's width `w` satisfies `item.x + w ≤ columns`, in both `GridLayout`
variants (cell geometry positive so the pixel division is meaningful). -/
theorem claim_C1 (columns : ℤ) (cellWidth cellHeight : ℚ)
    (items : List GridItem) (rs : ResizeState) (r : Rect) (e : MouseEvent)
    (item : GridItem) (hcw : 0 < cellWidth) (hrw : 0 < r.width)
    (hfind : items.find? (fun i => i.id == rs.id) = some item) :
    (∀ w h, LayoutAction.resize rs.id w h ∈
        (Fluid.handleResize columns cellWidth cellHeight items (some rs)
          (some r) e).2 → item.x + w ≤ columns) ∧
    (∀ w h, LayoutAction.resize rs.id w h ∈
        (Fixed.handleResize columns cellWidth cellHeight items (some rs)
          (some r) e).2 → item.x + w ≤ columns) := by
  constructor <;> intro w h hmem
  · simp only [Fluid.handleResize, hfind, List.mem_singleton,
      LayoutAction.resize.injEq] at hmem
    obtain ⟨-, hw, -⟩ := hmem
    subst hw
    simp only [Fluid.resizeW]
    omega
  · simp only [Fixed.handleResize, hfind, List.mem_singleton,
      LayoutAction.resize.injEq] at hmem
    obtain ⟨-, hw, -⟩ := hmem
    subst hw
    simp only [Fixed.resizeW, pixelToGridW]
    omega

/-- Witness for C1 at a concrete resize tick. -/
theorem claim_C1_witness :
    ((0 : ℚ) < 100 ∧ (0 : ℚ) < Rect.width ⟨0, 0, 400⟩ ∧
      List.find? (fun i => i.id == ResizeState.id ⟨"a", 2, 2, 0, 0⟩)
        [(⟨"a", 0, 0, 2, 2⟩ : GridItem)] = some ⟨"a", 0, 0, 2, 2⟩) ∧
    ((∀ w h, LayoutAction.resize (ResizeState.id ⟨"a", 2, 2, 0, 0⟩) w h ∈
        (Fluid.handleResize 4 100 100 [⟨"a", 0, 0, 2, 2⟩]
          (some ⟨"a", 2, 2, 0, 0⟩) (some ⟨0, 0, 400⟩) ⟨250, 250, 0⟩).2 →
        GridItem.x ⟨"a", 0, 0, 2, 2⟩ + w ≤ 4) ∧
    (∀ w h, LayoutAction.resize (ResizeState.id ⟨"a", 2, 2, 0, 0⟩) w h ∈
        (Fixed.handleResize 4 100 100 [⟨"a", 0, 0, 2, 2⟩]
          (some ⟨"a", 2, 2, 0, 0⟩) (some ⟨0, 0, 400⟩) ⟨250, 250, 0⟩).2 →
        GridItem.x ⟨"a", 0, 0, 2, 2⟩ + w ≤ 4)) :=
  ⟨⟨by norm_num, by norm_num, rfl⟩,
    claim_C1 4 100 100 [⟨"a", 0, 0, 2, 2⟩] ⟨"a", 2, 2, 0, 0⟩ ⟨0, 0, 400⟩
      ⟨250, 250, 0⟩ ⟨"a", 0, 0, 2, 2⟩ (by norm_num) (by norm_num) rfl⟩

/-- C2: a whole drag gesture (pointer-down on a panel, any sequence of
pointer-move ticks, pointer-up) dispatches nothing during the moves, and
on pointer-up dispatches exactly one `move` action carrying the item id
and the last computed preview position — unconditionally, even when that
position equals the starting one (the move list may be empty). -/
theorem claim_C2 (columns : ℤ) (cellWidth cellHeight : ℚ)
    (e0 : MouseEvent) (item : GridItem)
    (evs : List (Option Rect × MouseEvent)) (hbtn : e0.button = 0) :
    (Fluid.dragGesture columns cellWidth cellHeight e0 item evs).1 = [] ∧
    ∃ g : DragState,
      (Fluid.runMoves columns cellWidth cellHeight
        (onPanelMouseDown true e0 item none) evs).1 = some g ∧
      g.id = item.id ∧
      (Fluid.dragGesture columns cellWidth cellHeight e0 item evs).2 =
        [LayoutAction.move item.id g.gridX g.gridY] := by
  have hd0 : onPanelMouseDown true e0 item none =
      some ⟨item.id, e0.clientX, e0.clientY, item.x, item.y⟩ := by
    simp [onPanelMouseDown, hbtn]
  obtain ⟨g, hg, hid, -⟩ := runMoves_some columns cellWidth cellHeight evs
    ⟨item.id, e0.clientX, e0.clientY, item.x, item.y⟩
  refine ⟨?_, g, ?_, hid, ?_⟩
  · simp [Fluid.dragGesture, hd0, hg]
  · rw [hd0, hg]
  · simp [Fluid.dragGesture, hd0, hg, handleMoveEnd, hid]

/-- Witness for C2: Scenario A — item at `(2, 1)`, one pointer-move
mapping to grid `(4, 3)`, pointer-up. -/
theorem claim_C2_witness :
    MouseEvent.button ⟨200, 100, 0⟩ = 0 ∧
    ((Fluid.dragGesture 6 100 100 ⟨200, 100, 0⟩ ⟨"a", 2, 1, 1, 1⟩
        [(some ⟨0, 0, 600⟩, ⟨400, 300, 0⟩)]).1 = [] ∧
      ∃ g : DragState,
        (Fluid.runMoves 6 100 100
          (onPanelMouseDown true ⟨200, 100, 0⟩ ⟨"a", 2, 1, 1, 1⟩ none)
          [(some ⟨0, 0, 600⟩, ⟨400, 300, 0⟩)]).1 = some g ∧
        g.id = GridItem.id ⟨"a", 2, 1, 1, 1⟩ ∧
        (Fluid.dragGesture 6 100 100 ⟨200, 100, 0⟩ ⟨"a", 2, 1, 1, 1⟩
          [(some ⟨0, 0, 600⟩, ⟨400, 300, 0⟩)]).2 =
          [LayoutAction.move (GridItem.id ⟨"a", 2, 1, 1, 1⟩) g.gridX
            g.gridY]) :=
  ⟨rfl, claim_C2 6 100 100 ⟨200, 100, 0⟩ ⟨"a", 2, 1, 1, 1⟩
    [(some ⟨0, 0, 600⟩, ⟨400, 300, 0⟩)] rfl⟩

/-- C3: during a resize gesture every pointer-move tick with a measured
container and a found target item dispatches exactly one `resize` action
computed from the item's geometry in the snapshot passed at that tick;
pointer-up clears the gesture without dispatching; and once the gesture
state is cleared a tick dispatches nothing. -/
theorem claim_C3 (columns : ℤ) (cellWidth cellHeight : ℚ)
    (items : List GridItem) (rs : ResizeState) (r : Rect)
    (e e' : MouseEvent) (item : GridItem)
    (hfind : items.find? (fun i => i.id == rs.id) = some item) :
    (Fluid.handleResize columns cellWidth cellHeight items (some rs)
        (some r) e).2 =
      [LayoutAction.resize rs.id
        (Fluid.resizeW columns
          (Fluid.getCellWidthFromRect columns cellWidth r) item
          (e.clientX - r.left))
        (Fluid.resizeH cellHeight item (e.clientY - r.top))] ∧
    handleResizeEnd = ((none : Option ResizeState),
      ([] : List LayoutAction)) ∧
    (Fluid.handleResize columns cellWidth cellHeight items none (some r)
        e').2 = [] := by
  refine ⟨?_, rfl, rfl⟩
  simp [Fluid.handleResize, hfind]

/-- Witness for C3 at a concrete resize tick. -/
theorem claim_C3_witness :
    List.find? (fun i => i.id == ResizeState.id ⟨"a", 2, 2, 0, 0⟩)
      [(⟨"a", 0, 0, 2, 2⟩ : GridItem)] = some ⟨"a", 0, 0, 2, 2⟩ ∧
    ((Fluid.handleResize 4 100 100 [⟨"a", 0, 0, 2, 2⟩]
        (some ⟨"a", 2, 2, 0, 0⟩) (some ⟨0, 0, 400⟩) ⟨250, 250, 0⟩).2 =
      [LayoutAction.resize (ResizeState.id ⟨"a", 2, 2, 0, 0⟩)
        (Fluid.resizeW 4 (Fluid.getCellWidthFromRect 4 100 ⟨0, 0, 400⟩)
          ⟨"a", 0, 0, 2, 2⟩
          (MouseEvent.clientX ⟨250, 250, 0⟩ - Rect.left ⟨0, 0, 400⟩))
        (Fluid.resizeH 100 ⟨"a", 0, 0, 2, 2⟩
          (MouseEvent.clientY ⟨250, 250, 0⟩ - Rect.top ⟨0, 0, 400⟩))] ∧
    handleResizeEnd = ((none : Option ResizeState),
      ([] : List LayoutAction)) ∧
    (Fluid.handleResize 4 100 100 [⟨"a", 0, 0, 2, 2⟩] none
        (some ⟨0, 0, 400⟩) ⟨10, 10, 0⟩).2 = []) :=
  ⟨rfl, claim_C3 4 100 100 [⟨"a", 0, 0, 2, 2⟩] ⟨"a", 2, 2, 0, 0⟩
    ⟨0, 0, 400⟩ ⟨250, 250, 0⟩ ⟨10, 10, 0⟩ ⟨"a", 0, 0, 2, 2⟩ rfl⟩

/-- C4 fails as stated: with `columns = 4` and a snapshot item at
`x = 5` (the data model bounds `x` below but not by `columns`), a resize
tick dispatches the action `resize "a" (-1) 1`, a negative width. -/
theorem claim_C4_counterexample :
    (Fluid.handleResize 4 100 100 [⟨"a", 5, 0, 1, 1⟩]
        (some ⟨"a", 1, 1, 0, 0⟩) (some ⟨0, 0, 400⟩) ⟨600, 100, 0⟩).2 =
      [LayoutAction.resize "a" (-1) 1] ∧ (-1 : ℤ) ≤ 0 := by
  constructor
  · norm_num [Fluid.handleResize, Fluid.resizeW, Fluid.resizeH,
      Fluid.getCellWidthFromRect, pixelToGridH, jsRound, List.find?]
  · norm_num

/-- C4 (amended): provided the configuration is valid (`columns > 0`,
positive cell sizes, measured container width positive) and the item the
action concerns lies inside the grid (`0 ≤ x ≤ columns - 1`, `0 ≤ y`),
every dispatched action's numeric fields are in range: a resize carries
`1 ≤ w`, `1 ≤ h` and `item.x + w ≤ columns`; a drag gesture's single
move carries `0 ≤ x ≤ columns - 1` and `0 ≤ y`. (In the rational
embedding every dispatched field is an integer, so no `NaN` arises.) -/
theorem claim_C4 (columns : ℤ) (cellWidth cellHeight : ℚ)
    (hcols : 0 < columns) (hch : 0 < cellHeight) (hcw : 0 < cellWidth) :
    (∀ (items : List GridItem) (rs : ResizeState) (r : Rect)
        (e : MouseEvent) (item : GridItem), 0 < r.width →
      items.find? (fun i => i.id == rs.id) = some item →
      0 ≤ item.x → item.x ≤ columns - 1 →
      ∀ w h, LayoutAction.resize rs.id w h ∈
          (Fluid.handleResize columns cellWidth cellHeight items (some rs)
            (some r) e).2 →
        1 ≤ w ∧ 1 ≤ h ∧ item.x + w ≤ columns) ∧
    (∀ (e0 : MouseEvent) (item : GridItem)
        (evs : List (Option Rect × MouseEvent)),
      (∀ p ∈ evs, ∀ rr : Rect, p.1 = some rr → 0 < rr.width) →
      0 ≤ item.x → item.x ≤ columns - 1 → 0 ≤ item.y →
      ∀ i x y, LayoutAction.move i x y ∈
          (Fluid.dragGesture columns cellWidth cellHeight e0 item evs).1 ++
          (Fluid.dragGesture columns cellWidth cellHeight e0 item evs).2 →
        0 ≤ x ∧ x ≤ columns - 1 ∧ 0 ≤ y) := by
  constructor
  · intro items rs r e item hrw hfind hx0 hx1 w h hmem
    simp only [Fluid.handleResize, hfind, List.mem_singleton,
      LayoutAction.resize.injEq] at hmem
    obtain ⟨-, hw, hh⟩ := hmem
    subst hw
    subst hh
    refine ⟨?_, le_max_left _ _, ?_⟩
    · simp only [Fluid.resizeW]
      omega
    · simp only [Fluid.resizeW]
      omega
  · intro e0 item evs hrects hx0 hx1 hy0 i x y hmem
    by_cases hb : e0.button = 0
    · have hd0 : onPanelMouseDown true e0 item none =
          some ⟨item.id, e0.clientX, e0.clientY, item.x, item.y⟩ := by
        simp [onPanelMouseDown, hb]
      obtain ⟨g, hg, hid, hok⟩ := runMoves_some columns cellWidth
        cellHeight evs ⟨item.id, e0.clientX, e0.clientY, item.x, item.y⟩
      have hgok : DragOk columns g := hok (by omega) ⟨hx0, hx1, hy0⟩
      simp only [Fluid.dragGesture, hd0, hg, handleMoveEnd,
        List.nil_append, List.mem_singleton,
        LayoutAction.move.injEq] at hmem
      obtain ⟨-, hx, hy⟩ := hmem
      subst hx
      subst hy
      exact hgok
    · have hd0 : onPanelMouseDown true e0 item none = none := by
        simp [onPanelMouseDown, hb]
      simp [Fluid.dragGesture, hd0, runMoves_none, handleMoveEnd] at hmem

/-- Witness for C4 (amended) at a concrete configuration. -/
theorem claim_C4_witness :
    ((0 : ℤ) < 4 ∧ (0 : ℚ) < 100 ∧ (0 : ℚ) < 100) ∧
    ((∀ (items : List GridItem) (rs : ResizeState) (r : Rect)
        (e : MouseEvent) (item : GridItem), 0 < r.width →
      items.find? (fun i => i.id == rs.id) = some item →
      0 ≤ item.x → item.x ≤ 4 - 1 →
      ∀ w h, LayoutAction.resize rs.id w h ∈
          (Fluid.handleResize 4 100 100 items (some rs) (some r) e).2 →
        1 ≤ w ∧ 1 ≤ h ∧ item.x + w ≤ 4) ∧
    (∀ (e0 : MouseEvent) (item : GridItem)
        (evs : List (Option Rect × MouseEvent)),
      (∀ p ∈ evs, ∀ rr : Rect, p.1 = some rr → 0 < rr.width) →
      0 ≤ item.x → item.x ≤ 4 - 1 → 0 ≤ item.y →
      ∀ i x y, LayoutAction.move i x y ∈
          (Fluid.dragGesture 4 100 100 e0 item evs).1 ++
          (Fluid.dragGesture 4 100 100 e0 item evs).2 →
        0 ≤ x ∧ x ≤ 4 - 1 ∧ 0 ≤ y)) :=
  ⟨⟨by norm_num, by norm_num, by norm_num⟩,
    claim_C4 4 100 100 (by norm_num) (by norm_num) (by norm_num)⟩

/-- C5: for `pixelX ≥ 0`, `columns > 0` and a positive fixed cell width,
`pixelToGridX` lies in `[0, columns - 1]` and is non-decreasing in the
pixel coordinate. -/
theorem claim_C5 (cellWidth : ℚ) (columns : ℤ) (pixelX pixelX' : ℚ)
    (hcw : 0 < cellWidth) (hcols : 0 < columns) (hpx : 0 ≤ pixelX) :
    (0 ≤ pixelToGridX cellWidth columns pixelX ∧
      pixelToGridX cellWidth columns pixelX ≤ columns - 1) ∧
    (pixelX ≤ pixelX' →
      pixelToGridX cellWidth columns pixelX ≤
        pixelToGridX cellWidth columns pixelX') := by
  refine ⟨⟨pixelToGridX_nonneg _ _ _, pixelToGridX_le _ _ _ (by omega)⟩,
    fun h => ?_⟩
  unfold pixelToGridX
  exact max_le_max le_rfl
    (min_le_min le_rfl
      (jsRound_mono ((div_le_div_iff_of_pos_right hcw).mpr h)))

/-- Witness for C5 at concrete pixel positions `120 ≤ 260`. -/
theorem claim_C5_witness :
    ((0 : ℚ) < 100 ∧ (0 : ℤ) < 4 ∧ (0 : ℚ) ≤ 120) ∧
    ((0 ≤ pixelToGridX 100 4 120 ∧ pixelToGridX 100 4 120 ≤ 4 - 1) ∧
      ((120 : ℚ) ≤ 260 →
        pixelToGridX 100 4 120 ≤ pixelToGridX 100 4 260)) :=
  ⟨⟨by norm_num, by norm_num, by norm_num⟩,
    claim_C5 100 4 120 260 (by norm_num) (by norm_num) (by norm_num)⟩

/-- C6 fails as stated: the round trip is not exact for every grid
position — with `columns = 1` and `cellWidth = 100`, the grid x `1`
converts to pixel `100` and back to `0`, because `pixelToGridX` clamps
to `[0, columns - 1]`. -/
theorem claim_C6_counterexample :
    pixelToGridX 100 1 (((1 : ℤ) : ℚ) * 100) = 0 ∧ (0 : ℤ) ≠ 1 := by
  constructor
  · norm_num [pixelToGridX, jsRound]
  · norm_num

/-- C6 (amended): for every grid position inside the grid
(`0 ≤ gx ≤ columns - 1`, `0 ≤ gy`) and positive cell sizes, converting
to pixels as `grid * cellSize` and back with `pixelToGridX` /
`pixelToGridY` is exact. -/
theorem claim_C6 (cellWidth cellHeight : ℚ) (columns gx gy : ℤ)
    (hcw : 0 < cellWidth) (hch : 0 < cellHeight) (hgx0 : 0 ≤ gx)
    (hgx1 : gx ≤ columns - 1) (hgy : 0 ≤ gy) :
    pixelToGridX cellWidth columns ((gx : ℚ) * cellWidth) = gx ∧
    pixelToGridY cellHeight ((gy : ℚ) * cellHeight) = gy := by
  have hjs : ∀ n : ℤ, jsRound ((n : ℚ)) = n := by
    intro n
    unfold jsRound
    rw [add_comm, Int.floor_add_int]
    norm_num
  constructor
  · unfold pixelToGridX
    rw [mul_div_cancel_right₀ _ hcw.ne', hjs, min_eq_right hgx1,
      max_eq_right hgx0]
  · unfold pixelToGridY
    rw [mul_div_cancel_right₀ _ hch.ne', hjs, max_eq_right hgy]

/-- Witness for C6 (amended): the grid position `(2, 3)` with
`columns = 4` and `cellWidth = cellHeight = 100` round-trips exactly. -/
theorem claim_C6_witness :
    ((0 : ℚ) < 100 ∧ (0 : ℤ) ≤ 2 ∧ (2 : ℤ) ≤ 4 - 1 ∧ (0 : ℤ) ≤ 3) ∧
    (pixelToGridX 100 4 (((2 : ℤ) : ℚ) * 100) = 2 ∧
      pixelToGridY 100 (((3 : ℤ) : ℚ) * 100) = 3) :=
  ⟨⟨by norm_num, by norm_num, by norm_num, by norm_num⟩,
    claim_C6 100 100 4 2 3 (by norm_num) (by norm_num) (by norm_num)
      (by norm_num) (by norm_num)⟩

/-- C7: Scenario B — item at `(0, 0)` with `w = h = 2`, `columns = 4`,
`cellWidth = cellHeight = 100`; a resize tick with the pointer at
container-relative pixel `(250, 250)` dispatches exactly
`resize "a" 3 3` (`250 / 100` rounds to `3`; the `columns - x = 4`
clamp is not binding). -/
theorem claim_C7 :
    (Fixed.handleResize 4 100 100 [⟨"a", 0, 0, 2, 2⟩]
        (some ⟨"a", 2, 2, 0, 0⟩) (some ⟨0, 0, 400⟩) ⟨250, 250, 0⟩).2 =
      [LayoutAction.resize "a" 3 3] := by
  norm_num [Fixed.handleResize, Fixed.resizeW, Fluid.resizeH,
    pixelToGridW, pixelToGridH, jsRound, List.find?]

/-- C8: a resize tick whose target id is absent from the snapshot, or
that fires with an unmeasured/unmounted container, dispatches nothing
and leaves the gesture state unchanged. -/
theorem claim_C8 (columns : ℤ) (cellWidth cellHeight : ℚ)
    (items : List GridItem) (rs : Option ResizeState) (rs' : ResizeState)
    (r : Rect) (e e' : MouseEvent)
    (hfind : items.find? (fun i => i.id == rs'.id) = none) :
    Fluid.handleResize columns cellWidth cellHeight items (some rs')
      (some r) e = (some rs', []) ∧
    Fluid.handleResize columns cellWidth cellHeight items rs none e' =
      (rs, []) := by
  constructor
  · simp [Fluid.handleResize, hfind]
  · cases rs <;> rfl

/-- Witness for C8: an id absent from a concrete snapshot. -/
theorem claim_C8_witness :
    List.find? (fun i => i.id == ResizeState.id ⟨"a", 1, 1, 0, 0⟩)
      [(⟨"b", 0, 0, 1, 1⟩ : GridItem)] = none ∧
    (Fluid.handleResize 4 100 100 [⟨"b", 0, 0, 1, 1⟩]
        (some ⟨"a", 1, 1, 0, 0⟩) (some ⟨0, 0, 400⟩) ⟨50, 50, 0⟩ =
      (some ⟨"a", 1, 1, 0, 0⟩, []) ∧
    Fluid.handleResize 4 100 100 [⟨"b", 0, 0, 1, 1⟩]
        (some ⟨"a", 1, 1, 0, 0⟩) none ⟨60, 60, 0⟩ =
      (some ⟨"a", 1, 1, 0, 0⟩, [])) :=
  ⟨rfl, claim_C8 4 100 100 [⟨"b", 0, 0, 1, 1⟩] (some ⟨"a", 1, 1, 0, 0⟩)
    ⟨"a", 1, 1, 0, 0⟩ ⟨0, 0, 400⟩ ⟨50, 50, 0⟩ ⟨60, 60, 0⟩ rfl⟩

/-- C9: when the store reference bound to `useLayoutState` differs from
the one the hook's effect is synchronized with, the synchronization
cycle re-reads the new store's `getState()`; the cached snapshot `st` of
the previous store (arbitrary here) is not retained. -/
theorem claim_C9 (st : LayoutState) (d : Option ℕ) (s : Store)
    (hdep : d ≠ some s.sid) :
    (renderSync ⟨st, d⟩ s).state = s.getState := by
  simp [renderSync, hdep]

/-- Witness for C9: a hook instance caching an old snapshot, re-rendered
with a fresh store holding a different snapshot. -/
theorem claim_C9_witness :
    (some 1 : Option ℕ) ≠ some (Store.sid ⟨2, ⟨[⟨"a", 0, 0, 1, 1⟩], 4⟩⟩) ∧
    (renderSync ⟨⟨[], 1⟩, some 1⟩ ⟨2, ⟨[⟨"a", 0, 0, 1, 1⟩], 4⟩⟩).state =
      Store.getState ⟨2, ⟨[⟨"a", 0, 0, 1, 1⟩], 4⟩⟩ :=
  ⟨by decide, claim_C9 ⟨[], 1⟩ (some 1) ⟨2, ⟨[⟨"a", 0, 0, 1, 1⟩], 4⟩⟩
    (by decide)⟩

/-- C10: a drag gesture with no intervening pointer-move dispatches the
item's committed position exactly as captured at pointer-down — the
captured values are not clamped (the item coordinates here are arbitrary
integers and the column count plays no role). -/
theorem claim_C10 (columns : ℤ) (cellWidth cellHeight : ℚ)
    (item : GridItem) (e0 : MouseEvent) (hbtn : e0.button = 0) :
    Fluid.dragGesture columns cellWidth cellHeight e0 item [] =
      ([], [LayoutAction.move item.id item.x item.y]) := by
  simp [Fluid.dragGesture, Fluid.runMoves, onPanelMouseDown, hbtn,
    handleMoveEnd]

/-- Witness for C10 at an item whose committed position lies outside
`[0, columns - 1]`, showing the captured values pass through without
clamping. -/
theorem claim_C10_witness :
    MouseEvent.button ⟨10, 20, 0⟩ = 0 ∧
    Fluid.dragGesture 4 100 100 ⟨10, 20, 0⟩ ⟨"a", 99, -3, 1, 1⟩ [] =
      ([], [LayoutAction.move "a" 99 (-3)]) :=
  ⟨rfl, claim_C10 4 100 100 ⟨"a", 99, -3, 1, 1⟩ ⟨10, 20, 0⟩ rfl⟩

end Griditty
